import Mathlib

/-!
Verification of `movie_recommender_spark.py`, a PySpark ALS movie recommender
script.  The script is glue around an external ML library: it loads two CSV
tables, splits ratings into train/test, tunes an ALS factorization with
TrainValidationSplit, evaluates RMSE, saves the model, and prints top-N
recommendations.

We shallowly embed the script's own logic over plain Lean data:

* DataFrames become `List` of record structures; `float` rating values become
  `Rat` (written with `mkRat` for the source's decimal literals).
* The script's reshaping code (`explode` + column select, the left join with
  the movie dimension, the two single-user recommendation code paths) is
  translated directly from the source.
* Library operations that the script merely configures and calls
  (`recommendForAllUsers`, `recommendForUserSubset`, `randomSplit`,
  `ALS.fit`/`transform`, `TrainValidationSplit.fit`) are modelled from the
  spec, each marked `Modelled from the spec:` in its doc comment.
* The `__main__` block (lines 117-178) is embedded as a trace-producing
  function of an environment recording which external effects succeed.
-/

namespace MovieRec

/-- A ratings row after `load_data` projects to `userId, movieId, rating`
(source lines 34-35). -/
structure Rating where
  userId : Int
  movieId : Int
  rating : Rat
  deriving DecidableEq, Repr

/-- A movie-dimension row after `load_data` projects to `movieId, title`
(source lines 36-37). -/
structure Movie where
  movieId : Int
  title : String
  deriving DecidableEq, Repr

/-- One element of the `recommendations` array returned per user:
a `struct(movieId, rating)` (source lines 88, 106). -/
structure MovieRecEntry where
  movieId : Int
  rating : Rat
  deriving DecidableEq, Repr

/-- One row of the nested recommendation structure: `userId` plus an ordered
`recommendations` array (source lines 88, 105-106). -/
structure UserRecs where
  userId : Int
  recommendations : List MovieRecEntry
  deriving DecidableEq, Repr

/-- One row of the flattened recommendation table after `explode` and the
column select (source lines 90-95 and 107-112):
`userId, movieId, predicted_rating`. -/
structure FlatRec where
  userId : Int
  movieId : Int
  predicted_rating : Rat
  deriving DecidableEq, Repr

/-- One row of the final joined table
`userId, movieId, title, predicted_rating` (source lines 97-98, 113-114,
173); `title` is `Option` because the left join leaves it null for movie ids
absent from the dimension table. -/
structure JoinedRec where
  userId : Int
  movieId : Int
  title : Option String
  predicted_rating : Rat
  deriving DecidableEq, Repr

/-- The `explode` + select step (source lines 90-95, identically 107-112):
one output row per element of each user's `recommendations` array, in the
array's order, carrying `userId`, `rec.movieId` and `rec.rating` renamed to
`predicted_rating`. -/
def explodeRecs (user_recs : List UserRecs) : List FlatRec :=
  user_recs.flatMap fun u =>
    u.recommendations.map fun r => ⟨u.userId, r.movieId, r.rating⟩

/-- The title column values a left join on `movieId == k` attaches to one
left row: every matching dimension row in order, or a single null when there
is no match (Spark left-outer-join semantics for
`exploded.join(movies_df, on="movieId", how="left")`, source lines 97, 113,
173). -/
def titleMatches (movies_df : List Movie) (k : Int) : List (Option String) :=
  match movies_df.filter (fun m => m.movieId == k) with
  | [] => [none]
  | ms => ms.map fun m => some m.title

/-- The left join with the movie dimension followed by the select of
`userId, movieId, title, predicted_rating` (source lines 97-98, identically
113-114 and 173). -/
def leftJoinTitles (flat : List FlatRec) (movies_df : List Movie) :
    List JoinedRec :=
  flat.flatMap fun f =>
    (titleMatches movies_df f.movieId).map fun t =>
      ⟨f.userId, f.movieId, t, f.predicted_rating⟩

/-- Abstract fitted ALS model as the recommendation code paths see it.
Modelled from the spec: the fitted model is an opaque library artifact
exposing top-N prediction; we abstract it by the list of users it knows about
and, per user, its full ranked recommendation list (descending predicted
rating, distinct movie ids), of which the library operations return the first
N entries. -/
structure RecModel where
  knownUsers : List Int
  ranked : Int → List MovieRecEntry

/-- Modelled from the spec: `model.recommendForAllUsers(n)` (source line 88)
returns one row per known user with that user's top-n recommendation
entries. -/
def recommendForAllUsers (model : RecModel) (n : Nat) : List UserRecs :=
  model.knownUsers.map fun u => ⟨u, (model.ranked u).take n⟩

/-- Modelled from the spec: `model.recommendForUserSubset(users_df, n)`
(source lines 105, 169) returns one row per requested user with that user's
top-n recommendation entries. -/
def recommendForUserSubset (model : RecModel) (users : List Int) (n : Nat) :
    List UserRecs :=
  users.map fun u => ⟨u, (model.ranked u).take n⟩

/-- `recommend_for_all_users(model, movies_df, n)` (source lines 82-99):
ask for top-n per user, explode, select, left-join titles. -/
def recommend_for_all_users (model : RecModel) (movies_df : List Movie)
    (n : Nat) : List JoinedRec :=
  let user_recs := recommendForAllUsers model n
  let exploded := explodeRecs user_recs
  leftJoinTitles exploded movies_df

/-- `recommend_for_user(model, movies_df, user_id, n)` (source lines
101-115): build a one-row user DataFrame, ask for the top-n subset
recommendations, explode, select, left-join titles.  (The Python function
reads the session handle `spark` as a free global; the pure data flow is
embedded here and the name-resolution hazard is treated separately.) -/
def recommend_for_user (model : RecModel) (movies_df : List Movie)
    (user_id : Int) (n : Nat) : List JoinedRec :=
  let user_df := recommendForUserSubset model [user_id] n
  let exploded := explodeRecs user_df
  leftJoinTitles exploded movies_df

/-- The inline single-user recommendation code in the main block (source
lines 169-173), written out step by step as the source does: subset request
with n = 10, explode + select, left join + select. -/
def mainInlineUserRecs (model : RecModel) (movies : List Movie)
    (some_user_id : Int) : List JoinedRec :=
  let user_recs := recommendForUserSubset model [some_user_id] 10
  let exploded := user_recs.flatMap fun u =>
    u.recommendations.map fun r =>
      (⟨u.userId, r.movieId, r.rating⟩ : FlatRec)
  exploded.flatMap fun f =>
    (titleMatches movies f.movieId).map fun t =>
      (⟨f.userId, f.movieId, t, f.predicted_rating⟩ : JoinedRec)

/-- In a dimension table with pairwise-distinct movie ids, at most one row
matches a given key. -/
theorem length_filter_movieId_le_one (movies_df : List Movie) (k : Int)
    (h : (movies_df.map Movie.movieId).Nodup) :
    (movies_df.filter fun m => m.movieId == k).length ≤ 1 := by
  induction movies_df with
  | nil => simp
  | cons m ms ih =>
    simp only [List.map_cons, List.nodup_cons] at h
    by_cases hm : (m.movieId == k) = true
    · have htail : ms.filter (fun m2 => m2.movieId == k) = [] := by
        rw [List.filter_eq_nil_iff]
        intro a ha hak
        apply h.1
        have ha2 : a.movieId = k := by simpa using hak
        have hk : m.movieId = k := by simpa using hm
        rw [hk, ← ha2]
        exact List.mem_map_of_mem Movie.movieId ha
      simp [List.filter_cons, hm, htail]
    · simp only [List.filter_cons, hm, if_false]
      exact ih h.2

/-- With distinct movie ids, the left join attaches exactly one title value
to each left row. -/
theorem length_titleMatches (movies_df : List Movie) (k : Int)
    (h : (movies_df.map Movie.movieId).Nodup) :
    (titleMatches movies_df k).length = 1 := by
  have hle := length_filter_movieId_le_one movies_df k h
  unfold titleMatches
  cases hfe : movies_df.filter (fun m => m.movieId == k) with
  | nil => simp
  | cons m ms =>
    rw [hfe] at hle
    simp only [List.length_cons] at hle
    have hnil : ms = [] :=
      List.eq_nil_of_length_eq_zero (Nat.le_zero.mp (Nat.le_of_succ_le_succ hle))
    subst hnil
    simp

/-- A key with no matching dimension row yields the single null title. -/
theorem titleMatches_of_not_mem (movies_df : List Movie) (k : Int)
    (h : k ∉ movies_df.map Movie.movieId) :
    titleMatches movies_df k = [none] := by
  have hfil : movies_df.filter (fun m => m.movieId == k) = [] := by
    rw [List.filter_eq_nil_iff]
    intro m hm hmk
    apply h
    have hk : m.movieId = k := by simpa using hmk
    rw [← hk]
    exact List.mem_map_of_mem Movie.movieId hm
  unfold titleMatches
  rw [hfil]

/-- Row-count preservation of the left join, given distinct dimension keys. -/
theorem length_leftJoinTitles (flat : List FlatRec) (movies_df : List Movie)
    (h : (movies_df.map Movie.movieId).Nodup) :
    (leftJoinTitles flat movies_df).length = flat.length := by
  induction flat with
  | nil => rfl
  | cons f fs ih =>
    simp only [leftJoinTitles, List.flatMap_cons, List.length_append,
      List.length_map, List.length_cons] at *
    rw [length_titleMatches movies_df f.movieId h, ih]
    omega

/-- A recommendation row whose movie id is absent from the dimension table
survives the left join with a null title. -/
theorem leftJoinTitles_null_of_unmatched (flat : List FlatRec)
    (movies_df : List Movie) (f : FlatRec) (hf : f ∈ flat)
    (hk : f.movieId ∉ movies_df.map Movie.movieId) :
    (⟨f.userId, f.movieId, none, f.predicted_rating⟩ : JoinedRec) ∈
      leftJoinTitles flat movies_df := by
  unfold leftJoinTitles
  refine List.mem_flatMap.mpr ⟨f, hf, ?_⟩
  rw [titleMatches_of_not_mem movies_df f.movieId hk]
  simp

theorem explodeRecs_cons (v : UserRecs) (vs : List UserRecs) :
    explodeRecs (v :: vs) =
      (v.recommendations.map fun r =>
        (⟨v.userId, r.movieId, r.rating⟩ : FlatRec)) ++ explodeRecs vs := by
  simp [explodeRecs]

/-- Every flattened row's user id comes from some row of the nested
structure. -/
theorem mem_explodeRecs_userId {urs : List UserRecs} {f : FlatRec}
    (h : f ∈ explodeRecs urs) : f.userId ∈ urs.map UserRecs.userId := by
  unfold explodeRecs at h
  obtain ⟨u, hu, hf⟩ := List.mem_flatMap.mp h
  obtain ⟨r, _, rfl⟩ := List.mem_map.mp hf
  exact List.mem_map_of_mem UserRecs.userId hu

/-- A user absent from the nested structure contributes no flattened rows. -/
theorem filter_explodeRecs_of_not_mem {urs : List UserRecs} {u : Int}
    (h : u ∉ urs.map UserRecs.userId) :
    (explodeRecs urs).filter (fun f => f.userId == u) = [] := by
  rw [List.filter_eq_nil_iff]
  intro f hf hfu
  apply h
  have : f.userId = u := by simpa using hfu
  rw [← this]
  exact mem_explodeRecs_userId hf

/-- The flattened rows of a user appearing once with recommendation list `l`
are exactly `l`, row for row and in order. -/
theorem filter_explodeRecs_eq (urs : List UserRecs) (u : Int)
    (l : List MovieRecEntry) (hmem : (⟨u, l⟩ : UserRecs) ∈ urs)
    (huniq : (urs.map UserRecs.userId).Nodup) :
    (explodeRecs urs).filter (fun f => f.userId == u) =
      l.map fun r => ⟨u, r.movieId, r.rating⟩ := by
  induction urs with
  | nil => cases hmem
  | cons v vs ih =>
    simp only [List.map_cons, List.nodup_cons] at huniq
    rw [explodeRecs_cons, List.filter_append]
    rcases List.mem_cons.mp hmem with hv | hvs
    · subst hv
      have h2 : (explodeRecs vs).filter (fun f => f.userId == u) = [] :=
        filter_explodeRecs_of_not_mem (by simpa using huniq.1)
      have h1 : ((l.map fun r => (⟨u, r.movieId, r.rating⟩ : FlatRec)).filter
          (fun f => f.userId == u)) =
          l.map fun r => (⟨u, r.movieId, r.rating⟩ : FlatRec) := by
        rw [List.filter_eq_self]
        intro a ha
        obtain ⟨r, _, rfl⟩ := List.mem_map.mp ha
        simp
      rw [h1, h2, List.append_nil]
    · have hu : u ∈ vs.map UserRecs.userId := by
        simpa using List.mem_map_of_mem UserRecs.userId hvs
      have hne : v.userId ≠ u := fun he => huniq.1 (he ▸ hu)
      have h1 : ((v.recommendations.map fun r =>
          (⟨v.userId, r.movieId, r.rating⟩ : FlatRec)).filter
          (fun f => f.userId == u)) = [] := by
        rw [List.filter_eq_nil_iff]
        intro a ha hau
        obtain ⟨r, _, rfl⟩ := List.mem_map.mp ha
        exact hne (by simpa using hau)
      rw [h1, List.nil_append]
      exact ih hvs huniq.2

/-- C2 (counterexample): as stated over every movie dimension table, row
count preservation fails: a dimension table holding the same movie id twice
duplicates the matching recommendation row under Spark left-join semantics.
Here one flattened row joined against a two-row dimension table whose rows
share movie id 10 yields two rows, not one. -/
theorem C2_counterexample :
    ¬ ((leftJoinTitles [⟨1, 10, mkRat 9 2⟩]
        [⟨10, "Alpha"⟩, ⟨10, "Alpha again"⟩]).length =
      ([⟨1, 10, mkRat 9 2⟩] : List FlatRec).length) := by
  decide

/-- C2 (amended): provided the movie dimension table has pairwise-distinct
movie ids — as its data model requires — the left join on movieId returns
exactly one row per flattened row, so the joined table has the same number of
rows as the pre-join flattened table; and any recommendation row whose movie
id has no matching movie record appears in the joined table with a null
title rather than being dropped. -/
theorem C2_left_join_preserves_rows (flat : List FlatRec)
    (movies_df : List Movie)
    (huniq : (movies_df.map Movie.movieId).Nodup) :
    (leftJoinTitles flat movies_df).length = flat.length ∧
    ∀ f ∈ flat, f.movieId ∉ movies_df.map Movie.movieId →
      (⟨f.userId, f.movieId, none, f.predicted_rating⟩ : JoinedRec) ∈
        leftJoinTitles flat movies_df :=
  ⟨length_leftJoinTitles flat movies_df huniq,
   fun f hf hk => leftJoinTitles_null_of_unmatched flat movies_df f hf hk⟩

/-- Witness for C2: two flattened rows, one matched (id 10) and one
unmatched (id 99), joined against a distinct-key dimension table. -/
theorem C2_left_join_preserves_rows_witness :
    (leftJoinTitles [⟨1, 10, mkRat 9 2⟩, ⟨1, 99, mkRat 7 2⟩]
        [⟨10, "Alpha"⟩, ⟨20, "Beta"⟩]).length =
      ([⟨1, 10, mkRat 9 2⟩, ⟨1, 99, mkRat 7 2⟩] : List FlatRec).length ∧
    (⟨1, 99, none, mkRat 7 2⟩ : JoinedRec) ∈
      leftJoinTitles [⟨1, 10, mkRat 9 2⟩, ⟨1, 99, mkRat 7 2⟩]
        [⟨10, "Alpha"⟩, ⟨20, "Beta"⟩] :=
  ⟨(C2_left_join_preserves_rows
      [⟨1, 10, mkRat 9 2⟩, ⟨1, 99, mkRat 7 2⟩]
      [⟨10, "Alpha"⟩, ⟨20, "Beta"⟩] (by decide)).1,
   (C2_left_join_preserves_rows
      [⟨1, 10, mkRat 9 2⟩, ⟨1, 99, mkRat 7 2⟩]
      [⟨10, "Alpha"⟩, ⟨20, "Beta"⟩] (by decide)).2
     ⟨1, 99, mkRat 7 2⟩ (by decide) (by decide)⟩

/-- C3: for every user appearing (once, matching the one-row-per-user shape
of the nested structure) with a list `l` of k (movieId, rating) pairs with
distinct movie ids sorted by descending rating, the flattened table holds
exactly k rows for that user, with distinct movie ids, in the same
descending predicted_rating order. -/
theorem C3_flatten_per_user (urs : List UserRecs) (u : Int)
    (l : List MovieRecEntry) (hmem : (⟨u, l⟩ : UserRecs) ∈ urs)
    (huniq : (urs.map UserRecs.userId).Nodup)
    (hids : (l.map MovieRecEntry.movieId).Nodup)
    (hsorted : l.Sorted fun a b => b.rating ≤ a.rating) :
    ((explodeRecs urs).filter fun f => f.userId == u).length = l.length ∧
    (((explodeRecs urs).filter fun f => f.userId == u).map
      FlatRec.movieId).Nodup ∧
    ((explodeRecs urs).filter fun f => f.userId == u).Sorted
      (fun a b => b.predicted_rating ≤ a.predicted_rating) := by
  have key := filter_explodeRecs_eq urs u l hmem huniq
  refine ⟨by rw [key]; simp, ?_, ?_⟩
  · rw [key, List.map_map]
    exact hids
  · rw [key]
    exact List.Pairwise.map _ (fun a b h => h) hsorted

/-- Witness for C3: user 1 carries two entries (ids 10, 20, ratings 5 ≥ 3)
inside a two-user nested structure. -/
theorem C3_flatten_per_user_witness :
    ((explodeRecs [⟨1, [⟨10, mkRat 5 1⟩, ⟨20, mkRat 3 1⟩]⟩,
        ⟨2, [⟨10, mkRat 4 1⟩]⟩]).filter fun f => f.userId == 1).length =
      ([⟨10, mkRat 5 1⟩, ⟨20, mkRat 3 1⟩] : List MovieRecEntry).length ∧
    (((explodeRecs [⟨1, [⟨10, mkRat 5 1⟩, ⟨20, mkRat 3 1⟩]⟩,
        ⟨2, [⟨10, mkRat 4 1⟩]⟩]).filter fun f => f.userId == 1).map
      FlatRec.movieId).Nodup ∧
    ((explodeRecs [⟨1, [⟨10, mkRat 5 1⟩, ⟨20, mkRat 3 1⟩]⟩,
        ⟨2, [⟨10, mkRat 4 1⟩]⟩]).filter fun f => f.userId == 1).Sorted
      (fun a b => b.predicted_rating ≤ a.predicted_rating) :=
  C3_flatten_per_user
    [⟨1, [⟨10, mkRat 5 1⟩, ⟨20, mkRat 3 1⟩]⟩, ⟨2, [⟨10, mkRat 4 1⟩]⟩] 1
    [⟨10, mkRat 5 1⟩, ⟨20, mkRat 3 1⟩]
    (by decide) (by decide) (by decide) (by decide)

/-- C7: for the same fitted model, movie table and user id, the helper
`recommend_for_user` called with n = 10 and the inline single-user code in
the main block compute the same joined recommendation table, row for row. -/
theorem C7_duplicated_paths_agree (model : RecModel) (movies : List Movie)
    (user_id : Int) :
    recommend_for_user model movies user_id 10 =
      mainInlineUserRecs model movies user_id := rfl

/-- Modelled from the spec: the deterministic pseudorandom draw the split
assigns to the row at position `i` under `seed`; reproducible for the same
seed, input ordering and parallelism, which the embedding fixes. -/
def splitMix (seed i : Nat) : Nat :=
  (1103515245 * (seed + i) + 12345) % 2147483648

/-- Modelled from the spec: whether the row at position `i` falls into the
first part of a two-way `randomSplit` with first weight `w`: its draw,
reduced to a percentile, lies below `w`. -/
def assignTrain (w : Rat) (seed i : Nat) : Bool :=
  decide ((splitMix seed i % 100 : Int) < (w * 100).floor)

/-- The two parts of the seeded random split, each row kept with its
position tag so row identity is by position, not by value. -/
def randomSplitTagged (w1 : Rat) (seed : Nat) (rows : List Rating) :
    List (Nat × Rating) × List (Nat × Rating) :=
  (rows.enum.filter fun p => assignTrain w1 seed p.1,
   rows.enum.filter fun p => !assignTrain w1 seed p.1)

/-- Modelled from the spec: `df.randomSplit(weights, seed)` partitions the
rows into parts, membership decided per row by a pseudorandom function of
the seed and the row's position, and returns each part in input order. -/
def randomSplit (weights : List Rat) (seed : Nat) (rows : List Rating) :
    List Rating × List Rating :=
  let tagged := randomSplitTagged (weights.headD 0) seed rows
  (tagged.1.map Prod.snd, tagged.2.map Prod.snd)

/-- The train-test split of the main block (source line 136):
`ratings.randomSplit([0.8, 0.2], seed=42)`. -/
def mainSplit (ratings : List Rating) : List Rating × List Rating :=
  randomSplit [mkRat 8 10, mkRat 2 10] 42 ratings

/-- One point of the ALS hyperparameter grid: rank, regParam, maxIter. -/
structure ALSTuneParams where
  rank : Nat
  regParam : Rat
  maxIter : Nat
  deriving DecidableEq, Repr

/-- The grid built by ParamGridBuilder (source lines 58-62): the cartesian
product of rank over [8, 12, 16], regParam over [0.05, 0.1, 0.2] and
maxIter over [8, 12]. -/
def paramGrid : List ALSTuneParams :=
  ([8, 12, 16] : List Nat).flatMap fun r =>
    ([mkRat 5 100, mkRat 1 10, mkRat 2 10] : List Rat).flatMap fun reg =>
      ([8, 12] : List Nat).map fun mi => ⟨r, reg, mi⟩

/-- The RegressionEvaluator configuration (source line 64). -/
structure RegressionEvaluatorSpec where
  metricName : String
  labelCol : String
  predictionCol : String
  deriving DecidableEq, Repr

/-- The TrainValidationSplit configuration built in `train_als_with_tuning`
(source lines 66-70). -/
structure TrainValidationSplitSpec where
  estimatorParamMaps : List ALSTuneParams
  evaluator : RegressionEvaluatorSpec
  trainRatio : Rat
  parallelism : Nat
  deriving Repr

/-- The object `tvs.fit` returns: its configuration, the per-combination
validation metrics, and the best hyperparameter point, which stands for the
best fitted model (the fitted artifact is opaque library data). -/
structure TVSFitted where
  config : TrainValidationSplitSpec
  validationMetrics : List Rat
  bestModel : Option ALSTuneParams

/-- Fold keeping the strictly better-scoring (lower) candidate; the
incumbent wins ties, leaving the tie-break to the traversal order as the
spec allows. -/
def selectBest (score : ALSTuneParams → Rat) :
    List ALSTuneParams → ALSTuneParams → ALSTuneParams
  | [], best => best
  | p :: ps, best =>
      selectBest score ps (if score p < score best then p else best)

/-- Modelled from the spec: `TrainValidationSplit.fit` holds out
`1 - trainRatio` of the train table as a seeded random validation split,
fits every grid point on the remainder, scores each on the holdout with the
evaluator's metric (the numeric RMSE of a fitted ALS model is library code,
abstracted as the oracle `rmseOn`), and keeps the single lowest-scoring
fitted model. -/
def tvsFit (cfg : TrainValidationSplitSpec) (tvsSeed : Nat)
    (rmseOn : ALSTuneParams → List Rating → List Rating → Rat)
    (train_df : List Rating) : TVSFitted :=
  let parts := randomSplit [cfg.trainRatio, 1 - cfg.trainRatio] tvsSeed
    train_df
  let score := fun p => rmseOn p parts.1 parts.2
  ⟨cfg, cfg.estimatorParamMaps.map score,
    match cfg.estimatorParamMaps with
    | [] => none
    | p :: ps => some (selectBest score ps p)⟩

/-- The validation score `tvsFit` assigns to a grid point inside
`train_als_with_tuning`: `rmseOn` applied to the 0.8/0.2 internal split. -/
def tvsScore (tvsSeed : Nat)
    (rmseOn : ALSTuneParams → List Rating → List Rating → Rat)
    (train_df : List Rating) (p : ALSTuneParams) : Rat :=
  let parts := randomSplit [mkRat 8 10, 1 - mkRat 8 10] tvsSeed train_df
  rmseOn p parts.1 parts.2

/-- `train_als_with_tuning(train_df)` (source lines 50-74): grid over
rank/regParam/maxIter, rmse evaluator, TrainValidationSplit with
trainRatio 0.8 and parallelism 2; returns `(best model, fitted tvs)`. -/
def train_als_with_tuning (tvsSeed : Nat)
    (rmseOn : ALSTuneParams → List Rating → List Rating → Rat)
    (train_df : List Rating) : Option ALSTuneParams × TVSFitted :=
  let evaluator : RegressionEvaluatorSpec := ⟨"rmse", "rating", "prediction"⟩
  let tvs : TrainValidationSplitSpec := ⟨paramGrid, evaluator, mkRat 8 10, 2⟩
  let tvs_model := tvsFit tvs tvsSeed rmseOn train_df
  (tvs_model.bestModel, tvs_model)

theorem selectBest_mem (score : ALSTuneParams → Rat)
    (ps : List ALSTuneParams) (best : ALSTuneParams) :
    selectBest score ps best = best ∨ selectBest score ps best ∈ ps := by
  induction ps generalizing best with
  | nil => exact Or.inl rfl
  | cons p ps ih =>
    simp only [selectBest]
    by_cases h : score p < score best
    · rw [if_pos h]
      rcases ih p with he | hm
      · exact Or.inr (by rw [he]; exact List.mem_cons_self p ps)
      · exact Or.inr (List.mem_cons_of_mem p hm)
    · rw [if_neg h]
      rcases ih best with he | hm
      · exact Or.inl he
      · exact Or.inr (List.mem_cons_of_mem p hm)

theorem selectBest_le_init (score : ALSTuneParams → Rat)
    (ps : List ALSTuneParams) (best : ALSTuneParams) :
    score (selectBest score ps best) ≤ score best := by
  induction ps generalizing best with
  | nil => exact le_refl _
  | cons p ps ih =>
    simp only [selectBest]
    by_cases h : score p < score best
    · rw [if_pos h]
      exact le_trans (ih p) (le_of_lt h)
    · rw [if_neg h]
      exact ih best

theorem selectBest_le_mem (score : ALSTuneParams → Rat)
    (ps : List ALSTuneParams) (best : ALSTuneParams) (q : ALSTuneParams)
    (hq : q ∈ ps) :
    score (selectBest score ps best) ≤ score q := by
  induction ps generalizing best with
  | nil => cases hq
  | cons p ps ih =>
    simp only [selectBest]
    rcases List.mem_cons.mp hq with he | hm
    · subst he
      by_cases h : score q < score best
      · rw [if_pos h]
        exact selectBest_le_init score ps q
      · rw [if_neg h]
        exact le_trans (selectBest_le_init score ps best) (le_of_not_lt h)
    · by_cases h : score p < score best
      · rw [if_pos h]
        exact ih p hm
      · rw [if_neg h]
        exact ih best hm

/-- C4: the tuned fit searches exactly the 18 combinations of
rank x regParam x maxIter, holds out 20 percent of the train table
(trainRatio 0.8) scored by rmse with lower being better, runs with
parallelism 2, and returns both the best-scoring fitted model and the full
search result object. -/
theorem C4_tuned_fit (tvsSeed : Nat)
    (rmseOn : ALSTuneParams → List Rating → List Rating → Rat)
    (train_df : List Rating) :
    (train_als_with_tuning tvsSeed rmseOn
        train_df).2.config.estimatorParamMaps.length = 18 ∧
    (∀ p : ALSTuneParams,
      p ∈ (train_als_with_tuning tvsSeed rmseOn
          train_df).2.config.estimatorParamMaps ↔
        (p.rank = 8 ∨ p.rank = 12 ∨ p.rank = 16) ∧
        (p.regParam = mkRat 5 100 ∨ p.regParam = mkRat 1 10 ∨
          p.regParam = mkRat 2 10) ∧
        (p.maxIter = 8 ∨ p.maxIter = 12)) ∧
    (train_als_with_tuning tvsSeed rmseOn train_df).2.config.trainRatio =
      mkRat 8 10 ∧
    1 - (train_als_with_tuning tvsSeed rmseOn
        train_df).2.config.trainRatio = mkRat 2 10 ∧
    (train_als_with_tuning tvsSeed rmseOn
        train_df).2.config.evaluator.metricName = "rmse" ∧
    (train_als_with_tuning tvsSeed rmseOn train_df).2.config.parallelism =
      2 ∧
    (train_als_with_tuning tvsSeed rmseOn train_df).1 =
      (train_als_with_tuning tvsSeed rmseOn train_df).2.bestModel ∧
    (∃ b, (train_als_with_tuning tvsSeed rmseOn train_df).2.bestModel =
        some b ∧
      b ∈ (train_als_with_tuning tvsSeed rmseOn
          train_df).2.config.estimatorParamMaps ∧
      ∀ p ∈ (train_als_with_tuning tvsSeed rmseOn
          train_df).2.config.estimatorParamMaps,
        tvsScore tvsSeed rmseOn train_df b ≤
          tvsScore tvsSeed rmseOn train_df p) := by
  refine ⟨rfl, ?_, rfl, ?_, rfl, rfl, rfl, ?_⟩
  · intro p
    constructor
    · intro h
      have h2 : p ∈ paramGrid := h
      fin_cases h2 <;> refine ⟨by decide, by decide, by decide⟩
    · rintro ⟨h1, h2, h3⟩
      obtain ⟨r, reg, mi⟩ := p
      simp only at h1 h2 h3
      show (⟨r, reg, mi⟩ : ALSTuneParams) ∈ paramGrid
      rcases h1 with rfl | rfl | rfl <;> rcases h2 with rfl | rfl | rfl <;>
        rcases h3 with rfl | rfl <;> decide
  · show (1 : Rat) - mkRat 8 10 = mkRat 2 10
    norm_num [mkRat, Rat.normalize]
  · refine ⟨selectBest (tvsScore tvsSeed rmseOn train_df)
      (paramGrid.tail) (⟨8, mkRat 5 100, 8⟩ : ALSTuneParams), rfl, ?_, ?_⟩
    · show selectBest (tvsScore tvsSeed rmseOn train_df) (paramGrid.tail)
        (⟨8, mkRat 5 100, 8⟩ : ALSTuneParams) ∈ paramGrid
      rcases selectBest_mem (tvsScore tvsSeed rmseOn train_df)
        paramGrid.tail ⟨8, mkRat 5 100, 8⟩ with he | hm
      · rw [he]; decide
      · exact List.mem_of_mem_tail hm
    · intro p hp
      have hp2 : p ∈ paramGrid := hp
      rcases List.mem_cons.mp hp2 with he | hm
      · rw [he]
        exact selectBest_le_init _ _ _
      · exact selectBest_le_mem _ _ _ _ hm

/-- C5: the main-block splitter uses fixed proportions [0.8, 0.2] and seed
42; the train and test parts together are a permutation of the input ratings
(union by identity, ignoring order, equals the original set), the two parts
are disjoint by row identity (position tags), and membership is the
deterministic predicate of the seed and the row position, so the split is
reproducible for the same seed, input ordering and parallelism. -/
theorem C5_random_split (ratings : List Rating) :
    List.Perm ((mainSplit ratings).1 ++ (mainSplit ratings).2) ratings ∧
    List.Disjoint (randomSplitTagged (mkRat 8 10) 42 ratings).1
      (randomSplitTagged (mkRat 8 10) 42 ratings).2 ∧
    mainSplit ratings =
      ((randomSplitTagged (mkRat 8 10) 42 ratings).1.map Prod.snd,
       (randomSplitTagged (mkRat 8 10) 42 ratings).2.map Prod.snd) ∧
    (randomSplitTagged (mkRat 8 10) 42 ratings).1 =
      ratings.enum.filter (fun p => assignTrain (mkRat 8 10) 42 p.1) := by
  refine ⟨?_, ?_, rfl, rfl⟩
  · show ((ratings.enum.filter fun p =>
        assignTrain (mkRat 8 10) 42 p.1).map Prod.snd) ++
      ((ratings.enum.filter fun p =>
        !assignTrain (mkRat 8 10) 42 p.1).map Prod.snd) |>.Perm ratings
    rw [← List.map_append]
    have h2 := List.filter_append_perm
      (fun p : Nat × Rating => assignTrain (mkRat 8 10) 42 p.1) ratings.enum
    have h3 := h2.map Prod.snd
    rwa [List.enum_map_snd] at h3
  · intro x hx1 hx2
    have hp1 := (List.mem_filter.mp hx1).2
    have hp2 := (List.mem_filter.mp hx2).2
    rw [hp1] at hp2
    cases hp2

/-- The ALS estimator configuration as `train_als_model` builds it (source
lines 44-46): explicit userCol/itemCol/ratingCol, tunables, coldStartStrategy
"drop" and nonnegative true.  Parameters the script does not pass keep the
library defaults; in particular implicitPrefs stays false — modelled from
the spec: missing user-item pairs are treated as unobserved explicit-feedback
cells, not zeros. -/
structure ALSEstimator where
  userCol : String
  itemCol : String
  ratingCol : String
  rank : Nat
  regParam : Rat
  maxIter : Nat
  coldStartStrategy : String
  nonnegative : Bool
  implicitPrefs : Bool
  deriving Repr

/-- The estimator value constructed at source lines 44-46. -/
def alsEstimatorOf (rank : Nat) (regParam : Rat) (maxIter : Nat) :
    ALSEstimator :=
  ⟨"userId", "movieId", "rating", rank, regParam, maxIter, "drop", true,
    false⟩

/-- A fitted ALS model: its configuration, the users and items seen at fit
time, and the learned prediction function (the solver's output, abstracted
as an oracle since the solver is library code). -/
structure ALSFittedModel where
  config : ALSEstimator
  knownUsers : List Int
  knownItems : List Int
  predict : Int → Int → Rat

/-- Modelled from the spec: `als.fit(df)` records the training table's users
and items and learns the factors, abstracted by `predictor`. -/
def alsFit (als : ALSEstimator) (predictor : Int → Int → Rat)
    (df : List Rating) : ALSFittedModel :=
  ⟨als, df.map Rating.userId, df.map Rating.movieId, predictor⟩

/-- One row of `model.transform(test_df)`: the input columns plus the
prediction column. -/
structure PredictionRow where
  userId : Int
  movieId : Int
  rating : Rat
  prediction : Rat
  deriving DecidableEq, Repr

/-- Modelled from the spec: `model.transform` scores each row; with
coldStartStrategy "drop", every row whose user or item was unseen at fit
time is dropped from the output instead of receiving a NaN prediction. -/
def alsTransform (m : ALSFittedModel) (test_df : List Rating) :
    List PredictionRow :=
  let rows := if m.config.coldStartStrategy = "drop" then
      test_df.filter fun r =>
        m.knownUsers.contains r.userId && m.knownItems.contains r.movieId
    else test_df
  rows.map fun r => ⟨r.userId, r.movieId, r.rating,
    m.predict r.userId r.movieId⟩

/-- `train_als_model(ratings_df, rank, regParam, maxIter)`
(source lines 40-48). -/
def train_als_model (predictor : Int → Int → Rat)
    (ratings_df : List Rating) (rank : Nat) (regParam : Rat)
    (maxIter : Nat) : ALSFittedModel :=
  alsFit (alsEstimatorOf rank regParam maxIter) predictor ratings_df

/-- C8: the direct fit treats missing pairs as unobserved (implicitPrefs
false), constrains factors to be non-negative, uses coldStartStrategy
"drop", and consequently every row of any prediction table it produces has a
user and an item that were seen at fit time — unseen rows are dropped rather
than scored NaN. -/
theorem C8_direct_fit (predictor : Int → Int → Rat)
    (ratings_df : List Rating) (rank : Nat) (regParam : Rat) (maxIter : Nat)
    (test_df : List Rating) :
    (train_als_model predictor ratings_df rank regParam
        maxIter).config.implicitPrefs = false ∧
    (train_als_model predictor ratings_df rank regParam
        maxIter).config.nonnegative = true ∧
    (train_als_model predictor ratings_df rank regParam
        maxIter).config.coldStartStrategy = "drop" ∧
    ∀ p ∈ alsTransform
        (train_als_model predictor ratings_df rank regParam maxIter)
        test_df,
      p.userId ∈ ratings_df.map Rating.userId ∧
      p.movieId ∈ ratings_df.map Rating.movieId := by
  refine ⟨rfl, rfl, rfl, ?_⟩
  intro p hp
  have hp2 : p ∈ (test_df.filter fun r =>
      (ratings_df.map Rating.userId).contains r.userId &&
      (ratings_df.map Rating.movieId).contains r.movieId).map
      (fun r => (⟨r.userId, r.movieId, r.rating,
        predictor r.userId r.movieId⟩ : PredictionRow)) := by
    simp only [alsTransform, train_als_model, alsFit, alsEstimatorOf] at hp
    simpa using hp
  obtain ⟨r, hr, rfl⟩ := List.mem_map.mp hp2
  have hf := (List.mem_filter.mp hr).2
  simp only [Bool.and_eq_true] at hf
  exact ⟨by simpa using hf.1, by simpa using hf.2⟩

/-- Observable effects of the `__main__` block (source lines 117-178), in
program order. -/
inductive Event where
  | createSession
  | printMissingDataError
  | stopSession
  | loadData
  | printCounts
  | splitData
  | trainTuning
  | printBestParams
  | evaluateTest
  | printRMSE
  | saveAttempt (path : String) (overwrite : Bool)
  | savedOkMessage
  | saveWarning (msg : String)
  | showAllUsersPreview
  | showUserRecsPreview
  | raiseUncaught
  deriving DecidableEq, Repr

/-- How one run of the script terminates. -/
inductive ExitOutcome where
  | exitCode (n : Nat)
  | uncaughtException
  deriving DecidableEq, Repr

/-- The external circumstances of one run: whether each input file exists,
whether the library raises during fit or during evaluation, and whether the
model save fails (with what error message). -/
structure Env where
  ratingsExists : Bool
  moviesExists : Bool
  fitRaises : Bool
  evalRaises : Bool
  saveFails : Bool
  saveErr : String
  deriving Repr

/-- The `__main__` block (source lines 117-178), step for step: create the
session; if either input file is missing print the remediation message, stop
the session and exit with code 1; otherwise load, count, split, tune-train
(an exception there propagates uncaught), print best params, evaluate (an
exception there propagates uncaught), print RMSE, try to save to
`models/als_movie_model` in overwrite mode catching any failure as a printed
warning, show the all-users preview and the demonstration user's
recommendations, and stop the session. -/
def mainRun (env : Env) : List Event × ExitOutcome :=
  let t0 := [Event.createSession]
  if !(env.ratingsExists && env.moviesExists) then
    (t0 ++ [Event.printMissingDataError, Event.stopSession],
      ExitOutcome.exitCode 1)
  else
    let t1 := t0 ++ [Event.loadData, Event.printCounts, Event.splitData]
    if env.fitRaises then
      (t1 ++ [Event.trainTuning, Event.raiseUncaught],
        ExitOutcome.uncaughtException)
    else
      let t2 := t1 ++ [Event.trainTuning, Event.printBestParams]
      if env.evalRaises then
        (t2 ++ [Event.evaluateTest, Event.raiseUncaught],
          ExitOutcome.uncaughtException)
      else
        let t3 := t2 ++ [Event.evaluateTest, Event.printRMSE,
          Event.saveAttempt "models/als_movie_model" true]
        let t4 := if env.saveFails then t3 ++ [Event.saveWarning env.saveErr]
          else t3 ++ [Event.savedOkMessage]
        (t4 ++ [Event.showAllUsersPreview, Event.showUserRecsPreview,
          Event.stopSession], ExitOutcome.exitCode 0)

/-- C1: a run with a missing input file prints the remediation message,
exits with code 1 and never reaches training; a run in which both files
exist reaches the training stage. -/
theorem C1_missing_input (env : Env) :
    (env.ratingsExists = false ∨ env.moviesExists = false →
      (mainRun env).2 = ExitOutcome.exitCode 1 ∧
      Event.printMissingDataError ∈ (mainRun env).1 ∧
      Event.trainTuning ∉ (mainRun env).1) ∧
    (env.ratingsExists = true ∧ env.moviesExists = true →
      Event.trainTuning ∈ (mainRun env).1) := by
  constructor
  · intro h
    have hb : (env.ratingsExists && env.moviesExists) = false := by
      rcases h with h | h <;> simp [h]
    simp [mainRun, hb]
  · rintro ⟨h1, h2⟩
    obtain ⟨r, m, f, e, s, msg⟩ := env
    simp only at h1 h2
    subst h1; subst h2
    cases f <;> cases e <;> cases s <;> simp [mainRun]

/-- Witness for C1, both branches: a run missing the ratings file, and a
fault-free run with both files present. -/
theorem C1_missing_input_witness :
    ((mainRun ⟨false, true, false, false, false, ""⟩).2 =
        ExitOutcome.exitCode 1 ∧
      Event.printMissingDataError ∈
        (mainRun ⟨false, true, false, false, false, ""⟩).1 ∧
      Event.trainTuning ∉
        (mainRun ⟨false, true, false, false, false, ""⟩).1) ∧
    Event.trainTuning ∈ (mainRun ⟨true, true, false, false, false, ""⟩).1 :=
  ⟨(C1_missing_input ⟨false, true, false, false, false, ""⟩).1
      (Or.inl rfl),
   (C1_missing_input ⟨true, true, false, false, false, ""⟩).2 ⟨rfl, rfl⟩⟩

/-- C6: when both files exist, fit and evaluation succeed and the model save
fails, the run does not abort: the save targeted `models/als_movie_model` in
overwrite mode, a warning carrying the underlying error message is printed,
both console-report steps still execute, no exception escapes, and the run
exits normally. -/
theorem C6_save_failure_nonfatal (env : Env)
    (hr : env.ratingsExists = true) (hm : env.moviesExists = true)
    (hf : env.fitRaises = false) (he : env.evalRaises = false)
    (hs : env.saveFails = true) :
    Event.saveAttempt "models/als_movie_model" true ∈ (mainRun env).1 ∧
    Event.saveWarning env.saveErr ∈ (mainRun env).1 ∧
    Event.showAllUsersPreview ∈ (mainRun env).1 ∧
    Event.showUserRecsPreview ∈ (mainRun env).1 ∧
    Event.raiseUncaught ∉ (mainRun env).1 ∧
    (mainRun env).2 = ExitOutcome.exitCode 0 := by
  obtain ⟨r, m, f, e, s, msg⟩ := env
  simp only at hr hm hf he hs
  subst hr; subst hm; subst hf; subst he; subst hs
  simp [mainRun]

/-- Witness for C6: a concrete run whose save step fails with message
"disk full". -/
theorem C6_save_failure_nonfatal_witness :
    Event.saveAttempt "models/als_movie_model" true ∈
      (mainRun ⟨true, true, false, false, true, "disk full"⟩).1 ∧
    Event.saveWarning "disk full" ∈
      (mainRun ⟨true, true, false, false, true, "disk full"⟩).1 ∧
    Event.showAllUsersPreview ∈
      (mainRun ⟨true, true, false, false, true, "disk full"⟩).1 ∧
    Event.showUserRecsPreview ∈
      (mainRun ⟨true, true, false, false, true, "disk full"⟩).1 ∧
    Event.raiseUncaught ∉
      (mainRun ⟨true, true, false, false, true, "disk full"⟩).1 ∧
    (mainRun ⟨true, true, false, false, true, "disk full"⟩).2 =
      ExitOutcome.exitCode 0 :=
  C6_save_failure_nonfatal ⟨true, true, false, false, true, "disk full"⟩
    rfl rfl rfl rfl rfl

/-- C9 (counterexample): on the exit path where the fit raises an uncaught
exception, the script terminates without ever stopping the session — the
trace holds no stopSession event — so teardown-on-every-exit-path fails as
claimed. -/
theorem C9_counterexample :
    (mainRun ⟨true, true, true, false, false, ""⟩).1.count
        Event.stopSession = 0 ∧
    (mainRun ⟨true, true, true, false, false, ""⟩).2 =
      ExitOutcome.uncaughtException := by
  constructor <;> rfl

/-- C9 (amended): the session is created exactly once at startup on every
run; it is stopped exactly once on the normal-completion and missing-input
exit paths, but on a run that ends with an uncaught fit or evaluate
exception the script terminates without stopping the session at all. -/
theorem C9_session_teardown (env : Env) :
    (mainRun env).1.count Event.createSession = 1 ∧
    (∀ n, (mainRun env).2 = ExitOutcome.exitCode n →
      (mainRun env).1.count Event.stopSession = 1) ∧
    ((mainRun env).2 = ExitOutcome.uncaughtException →
      (mainRun env).1.count Event.stopSession = 0) := by
  obtain ⟨r, m, f, e, s, msg⟩ := env
  cases r <;> cases m <;> cases f <;> cases e <;> cases s <;>
    refine ⟨by simp [mainRun], fun n hn => ?_, fun hn => ?_⟩ <;>
    simp_all [mainRun]

/-- Witness for C9 (amended): the fault-free run stops the session exactly
once; the fit-raises run never stops it. -/
theorem C9_session_teardown_witness :
    (mainRun ⟨true, true, false, false, false, ""⟩).1.count
        Event.createSession = 1 ∧
    (mainRun ⟨true, true, false, false, false, ""⟩).1.count
        Event.stopSession = 1 ∧
    (mainRun ⟨true, true, true, false, false, ""⟩).1.count
        Event.stopSession = 0 :=
  ⟨(C9_session_teardown ⟨true, true, false, false, false, ""⟩).1,
   (C9_session_teardown ⟨true, true, false, false, false, ""⟩).2.1 0 rfl,
   (C9_session_teardown ⟨true, true, true, false, false, ""⟩).2.2 rfl⟩

/-- The Python error relevant to reading an unbound global. -/
inductive PyError where
  | nameError (name : String)
  deriving DecidableEq, Repr

/-- The module-global names bound after a plain `import` of the module: the
seven names imported at lines 17-22 plus `os`, and the seven function
definitions (lines 24-115).  The name `spark` is bound at module scope only
by line 118, inside the `if __name__ == "__main__"` guard. -/
def moduleGlobalsAfterImport : List String :=
  ["SparkSession", "col", "explode", "ALS", "RegressionEvaluator",
   "TrainValidationSplit", "ParamGridBuilder", "os",
   "create_spark_session", "load_data", "train_als_model",
   "train_als_with_tuning", "evaluate_model", "recommend_for_all_users",
   "recommend_for_user"]

/-- The module globals once the main block has also run its top-level
assignments (lines 118-173), the first of which binds `spark`. -/
def mainBlockGlobals : List String :=
  moduleGlobalsAfterImport ++
    ["spark", "RATINGS_PATH", "MOVIES_PATH", "MODEL_DIR", "ratings",
     "movies", "train", "test", "best_model", "tvs_model", "rmse",
     "predictions", "user_recommendations", "some_user_id_row",
     "some_user_id", "user_recs", "exploded"]

/-- Resolve a global name the way Python does when a function body reads a
free variable: succeed if the name is bound, raise NameError otherwise. -/
def resolveGlobal (globals : List String) (n : String) :
    Except PyError Unit :=
  if globals.contains n then Except.ok ()
  else Except.error (PyError.nameError n)

/-- `recommend_for_user` as invoked with a given module-global environment:
its first executed expression (line 105) reads the free global `spark` to
build the one-row user DataFrame, and only if that resolves does the body
produce the recommendation table. -/
def recommend_for_user_call (globals : List String) (model : RecModel)
    (movies_df : List Movie) (user_id : Int) (n : Nat) :
    Except PyError (List JoinedRec) :=
  (resolveGlobal globals "spark").map fun _ =>
    recommend_for_user model movies_df user_id n

/-- C10: `spark` is not among the module globals an importer gets, so any
call of `recommend_for_user` made without the main block having executed
fails with a NameError for `spark` before producing recommendations; once
the main block has bound `spark`, the same call returns the recommendation
table. -/
theorem C10_free_spark_name (model : RecModel) (movies_df : List Movie)
    (user_id : Int) (n : Nat) :
    "spark" ∉ moduleGlobalsAfterImport ∧
    recommend_for_user_call moduleGlobalsAfterImport model movies_df
        user_id n = Except.error (PyError.nameError "spark") ∧
    "spark" ∈ mainBlockGlobals ∧
    recommend_for_user_call mainBlockGlobals model movies_df user_id n =
      Except.ok (recommend_for_user model movies_df user_id n) :=
  ⟨by decide, rfl, by decide, rfl⟩

end MovieRec
